import Mathlib

/-!
Verification development for the dual-arm self-collision monitoring demo
(`collision_detection_server.py`, `robot_arm_client.py`,
`readDualArmSelfCollisionModelFromJson.py`).

The Python code is shallowly embedded: pure computations become Lean
functions over `ℚ` (standing for the floats), the dynamically-typed JSON
documents become the inductive `JVal`, fallible paths become `Except`,
and the external collaborators (the native collision engine `dac` and the
hardware SDK) are oracles passed in as explicit parameters, since they are
outside this repository.
-/

namespace DualArm

/-! ## JSON documents

A parsed JSON document, as handed to the loader by `json.load`. Python
objects become association lists (first binding wins on lookup, as in a
`dict` there are no duplicate keys anyway). -/

inductive JVal where
  | null
  | bool (b : Bool)
  | num (q : ℚ)
  | str (s : String)
  | arr (xs : List JVal)
  | obj (fields : List (String × JVal))

/-- `d.get(key, default)`: succeeds on a dict (lookup with default),
raises `AttributeError` on any non-dict value — modelled as `Except`. -/
def jget (v : JVal) (key : String) (dflt : JVal) : Except Unit JVal :=
  match v with
  | .obj fields =>
      match fields.lookup key with
      | some w => .ok w
      | none => .ok dflt
  | _ => .error ()

/-- Coercion of a dynamically-typed JSON leaf to the float the config
field declares (`List[float]` / `float` / `str` annotations in the
Python classes); non-numeric leaves fall back to the field default. -/
def toQ : JVal → ℚ
  | .num q => q
  | _ => 0

def toQList : JVal → List ℚ
  | .arr xs => xs.map toQ
  | _ => []

def toStr : JVal → String
  | .str s => s
  | _ => ""

/-- Character-list equality of a needle with the front of a haystack. -/
def frontEq : List Char → List Char → Bool
  | [], _ => true
  | _ :: _, [] => false
  | a :: as, b :: bs => a == b && frontEq as bs

/-- Substring test over character lists (Python `needle in haystack`). -/
def hasSub (needle : List Char) : List Char → Bool
  | [] => frontEq needle []
  | c :: t => frontEq needle (c :: t) || hasSub needle t

/-- Python `"dual_arm" in rob_type_str` where `rob_type_str` is whatever
the `RobType` key held: substring test on a string, membership on a list,
key membership on a dict, and a `TypeError` on numbers/booleans/null. -/
def robTypeContains : JVal → Except Unit Bool
  | .str s => .ok (hasSub "dual_arm".toList s.toList)
  | .arr xs => .ok (xs.any (fun x => match x with
      | .str s => decide (s = "dual_arm")
      | _ => false))
  | .obj fs => .ok (fs.any (fun kv => decide (kv.1 = "dual_arm")))
  | _ => .error ()

/-! ## Geometry configuration model
(`readDualArmSelfCollisionModelFromJson.py`, lines 4--90). Field `end`
of `CapsuleModel` is spelled `end_` because `end` is reserved in Lean. -/

def RobotType.Elfin : ℕ := 0
def RobotType.UR : ℕ := 1
def RobotType.DualArm : ℕ := 2

structure BallModel where
  offset : List ℚ
  radius : ℚ
  type : String
deriving DecidableEq

structure CapsuleModel where
  start : List ℚ
  end_ : List ℚ
  radius : ℚ
  type : String
deriving DecidableEq

structure LozengeModelCo where
  ref2local_frame : List ℚ
  offset : List ℚ
  geometry : List ℚ
  type : String
deriving DecidableEq

structure DualArmColliderConfiguration where
  dh : List ℚ
  robType : ℕ
  platform : LozengeModelCo
  truck : LozengeModelCo
  head : LozengeModelCo
  L_base : CapsuleModel
  L_lowerArm : CapsuleModel
  L_elbow : CapsuleModel
  L_upperArm : CapsuleModel
  L_wrist : BallModel
  R_base : CapsuleModel
  R_lowerArm : CapsuleModel
  R_elbow : CapsuleModel
  R_upperArm : CapsuleModel
  R_wrist : BallModel
deriving DecidableEq

/-- The `__init__` defaults of the Python classes. -/
def BallModel.init : BallModel := ⟨[], 0, ""⟩

def CapsuleModel.init : CapsuleModel := ⟨[], [], 0, ""⟩

def LozengeModelCo.init : LozengeModelCo := ⟨[], [], [], ""⟩

def DualArmColliderConfiguration.init : DualArmColliderConfiguration :=
  ⟨[], RobotType.DualArm, .init, .init, .init,
   .init, .init, .init, .init, .init,
   .init, .init, .init, .init, .init⟩

/-! ## Configuration loader
(`read_dual_arm_self_collision_model_from_json`, lines 93--208).

The Python function mutates `config` in place statement by statement and
wraps everything in a `try` that re-raises as `RuntimeError`; so an
exception part-way through leaves the earlier assignments applied. The
embedding threads the config explicitly and, on an error, returns the
config as mutated up to the failing statement. -/

inductive FileContent where
  | missing
  | invalidJson
  | parsed (v : JVal)

inductive LoadErr where
  | configNotFound
  | configParseError
deriving DecidableEq

/-- One source statement group: reads from the document and updates the
config, or raises (modelled `Except Unit`). Within one group either no
assignment happens before the raise (all the `.get` calls of a section
fail together iff the section value is not a dict). -/
def SectionStep :=
  JVal → DualArmColliderConfiguration → Except Unit DualArmColliderConfiguration

/-- `config.robType = RobotType.DualArm` guarded by the `"dual_arm" in
rob_type_str` test (lines 100--103). -/
def robTypeStep : SectionStep := fun v c => do
  let rts ← jget v "RobType" (.str "")
  let b ← robTypeContains rts
  .ok (if b then { c with robType := RobotType.DualArm } else c)

/-- `config.dh = [...]` from the `DH` sub-dict (lines 105--111); the four
`.get` calls are evaluated before the single assignment. -/
def dhStep : SectionStep := fun v c => do
  let rts ← jget v "RobType" (.str "")
  let b ← robTypeContains rts
  if b then
    let dhd ← jget v "DH" (.obj [])
    let d1 ← jget dhd "d1" (.num 0)
    let d4 ← jget dhd "d4" (.num 0)
    let d6 ← jget dhd "d6" (.num 0)
    let a2 ← jget dhd "a2" (.num 0)
    .ok { c with dh := [toQ d1, toQ d4, toQ d6, toQ a2] }
  else
    .ok c

/-- Reads one lozenge section (`ref2local_frame`, `geometry`, `offset`,
`type`, each defaulted). -/
def loadLozenge (v : JVal) (key : String) : Except Unit LozengeModelCo := do
  let sec ← jget v key (.obj [])
  let r ← jget sec "ref2local_frame" (.arr [])
  let g ← jget sec "geometry" (.arr [])
  let o ← jget sec "offset" (.arr [])
  let t ← jget sec "type" (.str "")
  .ok ⟨toQList r, toQList o, toQList g, toStr t⟩

/-- Reads one capsule section (`start`, `end`, `radius`, `type`). -/
def loadCapsule (v : JVal) (key : String) : Except Unit CapsuleModel := do
  let sec ← jget v key (.obj [])
  let s ← jget sec "start" (.arr [])
  let e ← jget sec "end" (.arr [])
  let rad ← jget sec "radius" (.num 0)
  let t ← jget sec "type" (.str "")
  .ok ⟨toQList s, toQList e, toQ rad, toStr t⟩

/-- Reads one ball section (`offset`, `radius`, `type`). -/
def loadBall (v : JVal) (key : String) : Except Unit BallModel := do
  let sec ← jget v key (.obj [])
  let o ← jget sec "offset" (.arr [])
  let rad ← jget sec "radius" (.num 0)
  let t ← jget sec "type" (.str "")
  .ok ⟨toQList o, toQ rad, toStr t⟩

def platformStep : SectionStep := fun v c =>
  (loadLozenge v "platform").map (fun m => { c with platform := m })

def truckStep : SectionStep := fun v c =>
  (loadLozenge v "truck").map (fun m => { c with truck := m })

def headStep : SectionStep := fun v c =>
  (loadLozenge v "head").map (fun m => { c with head := m })

/-- Left base — read from the `"base"` key (line 137). -/
def lBaseStep : SectionStep := fun v c =>
  (loadCapsule v "base").map (fun m => { c with L_base := m })

def lLowerArmStep : SectionStep := fun v c =>
  (loadCapsule v "l_lowerArm").map (fun m => { c with L_lowerArm := m })

def lElbowStep : SectionStep := fun v c =>
  (loadCapsule v "l_elbow").map (fun m => { c with L_elbow := m })

def lUpperArmStep : SectionStep := fun v c =>
  (loadCapsule v "l_upperArm").map (fun m => { c with L_upperArm := m })

def lWristStep : SectionStep := fun v c =>
  (loadBall v "l_wrist").map (fun m => { c with L_wrist := m })

/-- Right base — also read from the `"base"` key (line 172). -/
def rBaseStep : SectionStep := fun v c =>
  (loadCapsule v "base").map (fun m => { c with R_base := m })

def rLowerArmStep : SectionStep := fun v c =>
  (loadCapsule v "r_lowerArm").map (fun m => { c with R_lowerArm := m })

def rElbowStep : SectionStep := fun v c =>
  (loadCapsule v "r_elbow").map (fun m => { c with R_elbow := m })

def rUpperArmStep : SectionStep := fun v c =>
  (loadCapsule v "r_upperArm").map (fun m => { c with R_upperArm := m })

def rWristStep : SectionStep := fun v c =>
  (loadBall v "r_wrist").map (fun m => { c with R_wrist := m })

/-- The statement groups of the loader body, in source order. -/
def loaderSteps : List SectionStep :=
  [robTypeStep, dhStep, platformStep, truckStep, headStep,
   lBaseStep, lLowerArmStep, lElbowStep, lUpperArmStep, lWristStep,
   rBaseStep, rLowerArmStep, rElbowStep, rUpperArmStep, rWristStep]

/-- Runs the statement groups in order; the first raise aborts with
`ConfigParseError` (the catch-all `except Exception` of line 207),
returning the config as mutated so far. -/
def runSteps (v : JVal) :
    List SectionStep → DualArmColliderConfiguration →
    Except LoadErr Unit × DualArmColliderConfiguration
  | [], c => (.ok (), c)
  | s :: rest, c =>
      match s v c with
      | .error _ => (.error .configParseError, c)
      | .ok c2 => runSteps v rest c2

/-- The loader: `FileNotFoundError → RuntimeError("无法打开文件…")`
(= `ConfigNotFound`), a JSON syntax failure or any exception in the body
`→ RuntimeError("JSON解析错误…")` (= `ConfigParseError`). -/
def read_dual_arm_self_collision_model_from_json (fc : FileContent)
    (config : DualArmColliderConfiguration) :
    Except LoadErr Unit × DualArmColliderConfiguration :=
  match fc with
  | .missing => (.error .configNotFound, config)
  | .invalidJson => (.error .configParseError, config)
  | .parsed v => runSteps v loaderSteps config

/-! ## Parameter marshaller
(`CollisionDetectionServer.convert_config`, lines 174--247). Each Python
`params.extend(xs[:n]); params += [0.0] * (n - len(xs[:n]))` becomes
`xs.take n ++ List.replicate (n - (xs.take n).length) 0`. -/

def build_lozenge_params (lozenge : LozengeModelCo) : List ℚ :=
  ((lozenge.ref2local_frame.take 6 ++
      List.replicate (6 - (lozenge.ref2local_frame.take 6).length) 0) ++
    (lozenge.geometry.take 4 ++
      List.replicate (4 - (lozenge.geometry.take 4).length) 0) ++
    (lozenge.offset.take 3 ++
      List.replicate (3 - (lozenge.offset.take 3).length) 0)).take 13

def build_capsule_params (capsule : CapsuleModel) : List ℚ :=
  ((capsule.start.take 3 ++
      List.replicate (3 - (capsule.start.take 3).length) 0) ++
    (capsule.end_.take 3 ++
      List.replicate (3 - (capsule.end_.take 3).length) 0) ++
    [capsule.radius]).take 7

def build_wrist_params (wrist : BallModel) : List ℚ :=
  ((wrist.offset.take 3 ++
      List.replicate (3 - (wrist.offset.take 3).length) 0) ++
    [wrist.radius]).take 4

/-- `dh_params = self.config.dh[:4]; dh_params += [0.0] * (4 - len(dh_params))`
(lines 227--228). -/
def dh_params (dh : List ℚ) : List ℚ :=
  dh.take 4 ++ List.replicate (4 - (dh.take 4).length) 0

/-- The `init_params` tuple assembled by `convert_config`
(lines 230--241): robot type, DH, three lozenges, the four left-arm
capsules, and the left wrist ball. -/
def convert_config (c : DualArmColliderConfiguration) :
    ℕ × List ℚ × List ℚ × List ℚ × List ℚ ×
      List ℚ × List ℚ × List ℚ × List ℚ × List ℚ :=
  (c.robType, dh_params c.dh,
   build_lozenge_params c.platform,
   build_lozenge_params c.head,
   build_lozenge_params c.truck,
   build_capsule_params c.L_base,
   build_capsule_params c.L_lowerArm,
   build_capsule_params c.L_elbow,
   build_capsule_params c.L_upperArm,
   build_wrist_params c.L_wrist)

/-- Spec-side padded vector: exactly `n` entries, entry `i` is the source
element when present and `0` otherwise (missing entries defaulted to zero
on the right, extra entries truncated). -/
def padSpec (n : ℕ) (xs : List ℚ) : List ℚ :=
  List.ofFn (fun i : Fin n => xs.getD i 0)

/-! ## Monitoring server
(`collision_detection_server.py`). The native engine `dac` is an oracle:
`EngineOutcome` is what its `check_collision` does on the one call a
`joint_data` message triggers. -/

/-- The server's 12-slot joint position and velocity registers
(`dualarm_tagAXISPOS_REF` attributes `a0` … `a11`). -/
abbrev JointState := (Fin 12 → ℚ) × (Fin 12 → ℚ)

/-- `setattr(struct, f"a{i}", x)`. -/
def setA (f : Fin 12 → ℚ) (i : ℕ) (x : ℚ) : Fin 12 → ℚ :=
  fun j => if j.val = i then x else f j

/-- The `for i in range(12)` loop of `update_joints` (lines 331--333):
each iteration writes `joint_pos.a_i` then `joint_vel.a_i`; an
`IndexError` on a short input list aborts the loop (the surrounding
`except` swallows it), leaving the registers as written so far. -/
def update_joints_loop (pos vel : List ℚ) : ℕ → ℕ → JointState → JointState
  | 0, _, s => s
  | fuel + 1, i, s =>
      if i < 12 then
        match pos[i]? with
        | none => s
        | some x =>
            match vel[i]? with
            | none => (setA s.1 i x, s.2)
            | some y => update_joints_loop pos vel fuel (i + 1) (setA s.1 i x, setA s.2 i y)
      else s

/-- `CollisionDetectionServer.update_joints` (lines 327--337). -/
def update_joints (pos vel : List ℚ) (s : JointState) : JointState :=
  update_joints_loop pos vel 12 0 s

/-- What the engine's `dac.check_collision()` call does: return its
`(bool, list, f64)` triple, or raise. -/
inductive EngineOutcome where
  | ok (detected : Bool) (pairs : List (ℤ × ℤ)) (dist : ℚ)
  | err (msg : String)

/-- The dict returned by `CollisionDetectionServer.check_collision`
(lines 350--354 and 359--364); `error` is the extra key of the
exception branch. -/
structure CheckResult where
  collision_detected : Bool
  colliding_pairs : List (ℤ × ℤ)
  min_distance : ℚ
  error : Option String
deriving DecidableEq

/-- `CollisionDetectionServer.check_collision` (lines 339--364). -/
def check_collision : EngineOutcome → CheckResult
  | .ok d p dist => ⟨d, p, dist, none⟩
  | .err e => ⟨false, [], 0, some e⟩

/-- One received message, as the `handle_client` loop classifies it:
a JSON decode failure, a `joint_data` with both vector keys present, a
`joint_data` missing one of the keys (Python raises `KeyError`, which the
outer handler turns into closing the connection), a `ping`, or any other
parseable body. -/
inductive Msg where
  | malformed
  | jointData (pos vel : List ℚ)
  | jointDataMissing
  | ping
  | other

/-- One message the server sends back on the connection. -/
inductive Response where
  | collisionResult (result : CheckResult)
  | pong
  | errorReply (err : String)
deriving DecidableEq

/-- Outcome of one iteration of the receive loop. -/
inductive StepOut where
  | reply (r : Response)
  | noReply
  | closed
deriving DecidableEq

/-- One iteration of the `handle_client` dispatch (lines 376--405):
what is sent back, and the joint registers afterwards. -/
def handle_message (eng : EngineOutcome) (s : JointState) :
    Msg → StepOut × JointState
  | .malformed => (.reply (.errorReply "Invalid JSON format"), s)
  | .jointData pos vel =>
      (.reply (.collisionResult (check_collision eng)), update_joints pos vel s)
  | .jointDataMissing => (.closed, s)
  | .ping => (.reply .pong, s)
  | .other => (.noReply, s)

/-- The per-connection receive loop (`handle_client`, lines 366--411)
over a finite inbound message sequence: the replies sent, in order.
A `closed` outcome ends the connection; every other outcome loops. -/
def handle_client (eng : EngineOutcome) :
    JointState → List Msg → List Response
  | _, [] => []
  | s, m :: rest =>
      match handle_message eng s m with
      | (.reply r, s2) => r :: handle_client eng s2 rest
      | (.noReply, s2) => handle_client eng s2 rest
      | (.closed, _) => []

/-! ## Startup sequence
(`CollisionDetectionServer.initialize`, lines 285--325, and
`add_collision_pairs`, lines 116--148). -/

inductive InitEvent where
  | loadConfig
  | convertConfig
  | initDualArm
  | setTools
  | addPair (id1 id2 : ℤ)
  | verifyPairs
deriving DecidableEq

/-- The `collision_pairs` literal of `add_collision_pairs`
(lines 122--136), in source order. -/
def collision_pairs : List (ℤ × ℤ) :=
  [(-1, 2), (-1, 3), (-1, 4), (-1, 5), (-1, 6),
   (-1, 12), (-1, 13), (-1, 14), (-1, 15), (-1, 16),
   (1, 16), (6, 16), (6, 11)]

/-- `add_collision_pairs`: one `dac.set_collision_Pair` call per pair, in
order; `raiseAt = some k` means the engine raised on the `k`-th call,
which the method catches, returning `False` with only the first `k`
pairs installed. -/
def add_collision_pairs (raiseAt : Option ℕ) : Bool × List InitEvent :=
  match raiseAt with
  | none => (true, collision_pairs.map (fun p => .addPair p.1 p.2))
  | some k => (false, (collision_pairs.take k).map (fun p => .addPair p.1 p.2))

/-- `CollisionDetectionServer.initialize`: each stage is attempted in
order and a failing stage aborts with `False` — except the final
`check_collision_pairs` verification, whose failure is only printed
("but continuing...") before the method returns `True`. The Booleans and
`pairRaiseAt` are the stage outcomes; the trace records the attempts. -/
def initialization (loadOk convertOk initOk toolOk : Bool)
    (pairRaiseAt : Option ℕ) (verifyOk : Bool) : Bool × List InitEvent :=
  let t0 := [InitEvent.loadConfig]
  if !loadOk then (false, t0) else
  let t1 := t0 ++ [InitEvent.convertConfig]
  if !convertOk then (false, t1) else
  let t2 := t1 ++ [InitEvent.initDualArm]
  if !initOk then (false, t2) else
  let t3 := t2 ++ [InitEvent.setTools]
  if !toolOk then (false, t3) else
  let pr := add_collision_pairs pairRaiseAt
  let t4 := t3 ++ pr.2
  if !pr.1 then (false, t4) else
  let t5 := t4 ++ [InitEvent.verifyPairs]
  let _ := verifyOk
  (true, t5)

/-! ## Telemetry client
(`robot_arm_client.py`). The hardware SDK is an oracle: its return code
and result list for a read, and its stop outcome. -/

/-- `math.radians`: degrees to radians. `pi` is kept symbolic (it stands
for the float `math.pi`) so that everything stays in `ℚ`. -/
def radians (pi x : ℚ) : ℚ := x * (pi / 180)

/-- `Arm.read_joint_positions` (lines 87--120): `None` unless connected,
return code `0`, and exactly 6 values; otherwise each value is converted
degrees → radians and the first joint then gets the fixed `+π` offset. -/
def read_joint_positions (pi : ℚ) (connected : Bool) (ret : ℤ)
    (result : List ℚ) : Option (List ℚ) :=
  if !connected then none
  else if ret ≠ 0 then none
  else if result.length ≠ 6 then none
  else
    match result.map (radians pi) with
    | x :: rest => some ((x + pi) :: rest)
    | [] => some []

/-- `Arm.read_joint_velocities` (lines 122--150): same gating, values
forwarded exactly as read (degrees/second). -/
def read_joint_velocities (connected : Bool) (ret : ℤ)
    (result : List ℚ) : Option (List ℚ) :=
  if !connected then none
  else if ret ≠ 0 then none
  else if result.length ≠ 6 then none
  else some result

inductive Side where
  | left
  | right
deriving DecidableEq

/-- What `sdk.HRIF_GrpStop` does on one arm: return a code, or raise. -/
inductive StopOutcome where
  | ret (code : ℤ)
  | exn

/-- `Arm.group_stop` (lines 152--163): `True` on return code 0, `False`
on a nonzero code or an exception (caught inside the method). -/
def group_stop : StopOutcome → Bool
  | .ret code => decide (code = 0)
  | .exn => false

/-- `RobotArmClient.emergency_stop` (lines 304--322): the stop attempts
actually made, in order, with each attempt's result. The left block and
the right block are independent statements. -/
def emergency_stop (leftConnected rightConnected : Bool)
    (leftOut rightOut : StopOutcome) : List (Side × Bool) :=
  (if leftConnected then [(Side.left, group_stop leftOut)] else []) ++
    (if rightConnected then [(Side.right, group_stop rightOut)] else [])

/-- `RobotArmClient.handle_collision_result` (lines 295--302): fires the
emergency stop exactly when the verdict's `collision_detected` is truthy;
returns the attempts made, `none` when no stop was triggered. -/
def handle_collision_result (r : CheckResult)
    (leftConnected rightConnected : Bool)
    (leftOut rightOut : StopOutcome) : Option (List (Side × Bool)) :=
  if r.collision_detected then
    some (emergency_stop leftConnected rightConnected leftOut rightOut)
  else
    none

/-! ## Concrete inputs used by witnesses and counterexamples -/

/-- All 24 joint registers at `0`. -/
def zeroJoints : JointState := (fun _ => 0, fun _ => 0)

/-- All 24 joint registers at `1`. -/
def onesJoints : JointState := (fun _ => 1, fun _ => 1)

/-- A well-formed JSON document whose `platform` section is an array, not
an object: `{"RobType": "dual_arm", "DH": {"d1": 1}, "platform": []}`. -/
def cexDoc : JVal :=
  .obj [("RobType", .str "dual_arm"),
        ("DH", .obj [("d1", .num 1)]),
        ("platform", .arr [])]

/-! ## Theorems -/

/-- The `xs[:n]` slice followed by right-padding with `0.0` is exactly the
spec-side padded vector. -/
theorem take_pad_eq_padSpec :
    ∀ (n : ℕ) (xs : List ℚ),
      xs.take n ++ List.replicate (n - (xs.take n).length) 0 = padSpec n xs
  | 0, xs => by simp [padSpec]
  | n + 1, [] => by
      simp [padSpec, List.ofFn_const, List.replicate_succ]
  | n + 1, x :: t => by
      have ih := take_pad_eq_padSpec n t
      simp only [padSpec, List.take_succ_cons, List.length_cons,
        Nat.succ_sub_succ, List.cons_append, List.ofFn_succ, Fin.val_succ,
        List.getD_cons_zero, List.getD_cons_succ, Fin.val_zero]
      exact congrArg (x :: ·) ih

/-- C4: for every configuration, whatever the lengths of the source
arrays, the marshaller emits exactly 13 floats per lozenge, 7 per
capsule, 4 for the wrist ball and 4 for DH, each vector being the source
values truncated to the fixed arity and right-padded with zeros
(`padSpec`). -/
theorem marshaller_fixed_arity (l : LozengeModelCo) (cap : CapsuleModel)
    (b : BallModel) (dh : List ℚ) :
    build_lozenge_params l =
      padSpec 6 l.ref2local_frame ++ padSpec 4 l.geometry ++ padSpec 3 l.offset ∧
    (build_lozenge_params l).length = 13 ∧
    build_capsule_params cap =
      padSpec 3 cap.start ++ padSpec 3 cap.end_ ++ [cap.radius] ∧
    (build_capsule_params cap).length = 7 ∧
    build_wrist_params b = padSpec 3 b.offset ++ [b.radius] ∧
    (build_wrist_params b).length = 4 ∧
    dh_params dh = padSpec 4 dh ∧
    (dh_params dh).length = 4 := by
  have h6 := take_pad_eq_padSpec 6 l.ref2local_frame
  have h4 := take_pad_eq_padSpec 4 l.geometry
  have h3 := take_pad_eq_padSpec 3 l.offset
  have hs := take_pad_eq_padSpec 3 cap.start
  have he := take_pad_eq_padSpec 3 cap.end_
  have ho := take_pad_eq_padSpec 3 b.offset
  have hd := take_pad_eq_padSpec 4 dh
  have hlz : build_lozenge_params l =
      padSpec 6 l.ref2local_frame ++ padSpec 4 l.geometry ++ padSpec 3 l.offset := by
    rw [build_lozenge_params, h6, h4, h3]
    exact List.take_of_length_le (by simp [padSpec])
  have hcp : build_capsule_params cap =
      padSpec 3 cap.start ++ padSpec 3 cap.end_ ++ [cap.radius] := by
    rw [build_capsule_params, hs, he]
    exact List.take_of_length_le (by simp [padSpec])
  have hwr : build_wrist_params b = padSpec 3 b.offset ++ [b.radius] := by
    rw [build_wrist_params, ho]
    exact List.take_of_length_le (by simp [padSpec])
  have hdh : dh_params dh = padSpec 4 dh := by rw [dh_params, hd]
  refine ⟨hlz, ?_, hcp, ?_, hwr, ?_, hdh, ?_⟩ <;>
    simp [hlz, hcp, hwr, hdh, padSpec]

/-- C8: with every earlier stage succeeding, startup performs exactly one
pair-installation run, after engine initialization, with exactly the
thirteen pairs in their fixed source order — and it returns success
whether or not the subsequent pair verification succeeds. -/
theorem startup_pair_installation (verifyOk : Bool) :
    initialization true true true true none verifyOk =
      (true,
       [InitEvent.loadConfig, InitEvent.convertConfig, InitEvent.initDualArm,
        InitEvent.setTools,
        InitEvent.addPair (-1) 2, InitEvent.addPair (-1) 3,
        InitEvent.addPair (-1) 4, InitEvent.addPair (-1) 5,
        InitEvent.addPair (-1) 6, InitEvent.addPair (-1) 12,
        InitEvent.addPair (-1) 13, InitEvent.addPair (-1) 14,
        InitEvent.addPair (-1) 15, InitEvent.addPair (-1) 16,
        InitEvent.addPair 1 16, InitEvent.addPair 6 16,
        InitEvent.addPair 6 11, InitEvent.verifyPairs]) := by
  rfl

/-- C10: when the engine's `check_collision` raises, the server's check
returns `collision_detected = false`, an empty pair list, `min_distance
0.0` and an `error` field; a `joint_data` message is still answered with
a `collision_result` carrying that verdict, and the client treats it as
a non-collision (no emergency stop). -/
theorem engine_failure_fail_open (e : String) (s : JointState)
    (pos vel : List ℚ) (lc rc : Bool) (lo ro : StopOutcome) :
    check_collision (.err e) = ⟨false, [], 0, some e⟩ ∧
    (handle_message (.err e) s (.jointData pos vel)).1 =
      .reply (.collisionResult ⟨false, [], 0, some e⟩) ∧
    handle_collision_result ⟨false, [], 0, some e⟩ lc rc lo ro = none :=
  ⟨rfl, rfl, rfl⟩

/-- C2 counterexample: a parseable message whose `type` is neither
`joint_data` nor `ping` is answered with nothing at all — no error
reply is sent (the dispatch has no `else` branch). -/
theorem unknown_type_gets_no_reply :
    (handle_message (.ok false [] 0) zeroJoints Msg.other).1 = .noReply ∧
    handle_client (.ok false [] 0) zeroJoints [Msg.other] = [] :=
  ⟨rfl, rfl⟩

/-- C2 (amended): a malformed body yields the error reply and the
connection stays open; an unknown discriminator yields no reply but the
connection also stays open; in both cases a subsequent well-formed
`joint_data` request on the same connection is still answered. -/
theorem malformed_is_recoverable (eng : EngineOutcome) (s : JointState)
    (pos vel : List ℚ) :
    handle_client eng s [Msg.malformed, Msg.jointData pos vel] =
      [.errorReply "Invalid JSON format",
       .collisionResult (check_collision eng)] ∧
    handle_client eng s [Msg.other, Msg.jointData pos vel] =
      [.collisionResult (check_collision eng)] :=
  ⟨rfl, rfl⟩

/-- C1 counterexample: the engine honours its `(bool, list, f64)` shape
yet reports distance `-1.0`; the server forwards it, so the
`collision_result` reply carries a negative `min_distance`. -/
theorem negative_distance_forwarded :
    (handle_message (.ok false [] (-1)) zeroJoints
        (.jointData (List.replicate 12 0) (List.replicate 12 0))).1 =
      .reply (.collisionResult ⟨false, [], -1, none⟩) ∧
    ((-1 : ℚ) < 0) :=
  ⟨rfl, by norm_num⟩

/-- C1 (amended): a `joint_data` request with 12-length vectors is always
answered with a `collision_result` whose result carries the engine's
boolean, the engine's pair list, and a `min_distance` equal to the
engine's reported distance — hence non-negative whenever the engine's
distance is. -/
theorem joint_data_reply (d : Bool) (prs : List (ℤ × ℤ)) (dist : ℚ)
    (pos vel : List ℚ) (s : JointState)
    (_hp : pos.length = 12) (_hv : vel.length = 12) :
    (handle_message (.ok d prs dist) s (.jointData pos vel)).1 =
      .reply (.collisionResult ⟨d, prs, dist, none⟩) ∧
    (0 ≤ dist → 0 ≤ (check_collision (.ok d prs dist)).min_distance) :=
  ⟨rfl, fun h => h⟩

/-- C1 witness: the amended theorem applied at a concrete request. -/
theorem joint_data_reply_witness :
    (handle_message (.ok false [] 1) zeroJoints
        (.jointData (List.replicate 12 0) (List.replicate 12 0))).1 =
      .reply (.collisionResult ⟨false, [], 1, none⟩) ∧
    (0 ≤ (1 : ℚ) → 0 ≤ (check_collision (.ok false [] 1)).min_distance) :=
  joint_data_reply false [] 1 (List.replicate 12 0) (List.replicate 12 0)
    zeroJoints (by simp) (by simp)

/-- C3: a verdict with `collision_detected = true` fires the emergency
stop; the left arm is attempted whenever connected and the right arm is
attempted whenever connected, each with its own outcome — in particular
the right attempt happens for every possible left outcome (error code or
exception), so one arm's failure never suppresses the other's stop. -/
theorem collision_triggers_stop_on_each_arm (r : CheckResult)
    (lc rc : Bool) (lo ro : StopOutcome)
    (h : r.collision_detected = true) :
    handle_collision_result r lc rc lo ro =
      some (emergency_stop lc rc lo ro) ∧
    (lc = true → (Side.left, group_stop lo) ∈ emergency_stop lc rc lo ro) ∧
    (rc = true → (Side.right, group_stop ro) ∈ emergency_stop lc rc lo ro) := by
  refine ⟨by simp [handle_collision_result, h], ?_, ?_⟩
  · intro hl
    simp [emergency_stop, hl]
  · intro hr
    cases lc <;> simp [emergency_stop, hr]

/-- C3 witness: collision verdict, both arms connected, the left stop
raising an exception, the right stop still attempted (and succeeding). -/
theorem collision_triggers_stop_witness :
    handle_collision_result ⟨true, [], 0, none⟩ true true .exn (.ret 0) =
      some (emergency_stop true true .exn (.ret 0)) ∧
    (true = true →
      (Side.left, group_stop .exn) ∈ emergency_stop true true .exn (.ret 0)) ∧
    (true = true →
      (Side.right, group_stop (.ret 0)) ∈ emergency_stop true true .exn (.ret 0)) :=
  collision_triggers_stop_on_each_arm ⟨true, [], 0, none⟩ true true .exn (.ret 0) rfl

/-- Invariant of the `update_joints` register loop when both vectors have
the full 12 entries: a run starting at slot `i` rewrites every slot from
`i` up and keeps the slots below `i`. -/
theorem update_joints_loop_spec (pos vel : List ℚ)
    (hp : pos.length = 12) (hv : vel.length = 12) :
    ∀ (fuel i : ℕ) (s : JointState), i + fuel = 12 →
      ∀ j : Fin 12,
        ((update_joints_loop pos vel fuel i s).1 j =
          if i ≤ j.val then pos.getD j 0 else s.1 j) ∧
        ((update_joints_loop pos vel fuel i s).2 j =
          if i ≤ j.val then vel.getD j 0 else s.2 j) := by
  intro fuel
  induction fuel with
  | zero =>
      intro i s hi j
      have hj : ¬ i ≤ j.val := by omega
      simp [update_joints_loop, hj]
  | succ n ih =>
      intro i s hi j
      have hi12 : i < 12 := by omega
      have hip : i < pos.length := by omega
      have hiv : i < vel.length := by omega
      simp only [update_joints_loop, if_pos hi12,
        List.getElem?_eq_getElem hip, List.getElem?_eq_getElem hiv]
      obtain ⟨ih1, ih2⟩ :=
        ih (i + 1) (setA s.1 i pos[i], setA s.2 i vel[i]) (by omega) j
      rw [ih1, ih2]
      constructor
      · by_cases hij : i + 1 ≤ j.val
        · rw [if_pos hij, if_pos (by omega)]
        · by_cases hij2 : i ≤ j.val
          · have hji : j.val = i := by omega
            simp only [if_neg hij, if_pos hij2, setA]
            rw [if_pos hji, List.getD_eq_getElem pos 0 (by omega)]
            congr 1
            omega
          · simp only [if_neg hij, if_neg hij2, setA]
            rw [if_neg (by omega : ¬ j.val = i)]
      · by_cases hij : i + 1 ≤ j.val
        · rw [if_pos hij, if_pos (by omega)]
        · by_cases hij2 : i ≤ j.val
          · have hji : j.val = i := by omega
            simp only [if_neg hij, if_pos hij2, setA]
            rw [if_pos hji, List.getD_eq_getElem vel 0 (by omega)]
            congr 1
            omega
          · simp only [if_neg hij, if_neg hij2, setA]
            rw [if_neg (by omega : ¬ j.val = i)]

/-- C6 counterexample: a `joint_data` message carrying 1-length vectors
is processed, aborts the register loop on the out-of-range read (the
exception is swallowed), and leaves the joint state mixed: slot 0 holds
the message's values while slot 1 still holds the pre-message values. -/
theorem short_message_partial_update :
    (update_joints [5] [7] onesJoints).1 0 = 5 ∧
    (update_joints [5] [7] onesJoints).2 0 = 7 ∧
    (update_joints [5] [7] onesJoints).1 1 = 1 ∧
    (update_joints [5] [7] onesJoints).2 1 = 1 :=
  ⟨rfl, rfl, rfl, rfl⟩

/-- C6 (amended): a telemetry message with full 12-length position and
velocity vectors overwrites all 24 joint-state entries wholesale — every
entry afterwards comes from that message, independent of the prior
state; only a short message can leave a partial update. -/
theorem full_frame_overwrites (pos vel : List ℚ) (s : JointState)
    (hp : pos.length = 12) (hv : vel.length = 12) (j : Fin 12) :
    (update_joints pos vel s).1 j = pos.getD j 0 ∧
    (update_joints pos vel s).2 j = vel.getD j 0 := by
  have h := update_joints_loop_spec pos vel hp hv 12 0 s (by omega) j
  simpa [update_joints] using h

/-- C6 witness: the amended theorem at a concrete full frame. -/
theorem full_frame_overwrites_witness :
    (update_joints (List.replicate 12 3) (List.replicate 12 4) zeroJoints).1 0 =
      (List.replicate 12 (3 : ℚ)).getD 0 0 ∧
    (update_joints (List.replicate 12 3) (List.replicate 12 4) zeroJoints).2 0 =
      (List.replicate 12 (4 : ℚ)).getD 0 0 :=
  full_frame_overwrites (List.replicate 12 3) (List.replicate 12 4)
    zeroJoints (by simp) (by simp) 0

/-- C7: when a position read succeeds with 6 values, each value is
converted degrees → radians and the first joint alone then receives the
fixed `+π` offset; a successful velocity read is forwarded exactly as
read, with no conversion. (`pi` stands for the float `math.pi`.) -/
theorem read_units_conversion (pi : ℚ) (connected : Bool) (ret : ℤ)
    (result : List ℚ) (hc : connected = true) (hr : ret = 0)
    (hl : result.length = 6) :
    read_joint_positions pi connected ret result =
      some ((radians pi (result.getD 0 0) + pi) ::
        (result.drop 1).map (radians pi)) ∧
    read_joint_velocities connected ret result = some result := by
  subst hc
  subst hr
  cases result with
  | nil => simp at hl
  | cons x rest =>
      constructor
      · simp [read_joint_positions, hl]
      · simp [read_joint_velocities, hl]

/-- C7 witness: the theorem at a concrete successful 6-value read. -/
theorem read_units_conversion_witness :
    read_joint_positions 3 true 0 [1, 2, 3, 4, 5, 6] =
      some ((radians 3 (([1, 2, 3, 4, 5, 6] : List ℚ).getD 0 0) + 3) ::
        (([1, 2, 3, 4, 5, 6] : List ℚ).drop 1).map (radians 3)) ∧
    read_joint_velocities true 0 [1, 2, 3, 4, 5, 6] =
      some [1, 2, 3, 4, 5, 6] :=
  read_units_conversion 3 true 0 [1, 2, 3, 4, 5, 6] rfl rfl rfl

/-- A succeeding statement group hands its updated config to the rest of
the loader body. -/
theorem runSteps_cons_ok {v : JVal} {s : SectionStep}
    {rest : List SectionStep} {c c2 : DualArmColliderConfiguration}
    (h : s v c = .ok c2) :
    runSteps v (s :: rest) c = runSteps v rest c2 := by
  simp [runSteps, h]

/-- A raising statement group aborts the loader with `ConfigParseError`,
the config left as mutated so far. -/
theorem runSteps_cons_err {v : JVal} {s : SectionStep}
    {rest : List SectionStep} {c : DualArmColliderConfiguration} {e : Unit}
    (h : s v c = .error e) :
    runSteps v (s :: rest) c = (.error .configParseError, c) := by
  simp [runSteps, h]

/-- C5 counterexample: on the well-formed document
`{"RobType": "dual_arm", "DH": {"d1": 1}, "platform": []}` the loader
fails with the parse error, yet the caller's config has already been
mutated: its DH vector now holds `[1, 0, 0, 0]` instead of the initial
`[]` — the failure is not all-or-nothing. -/
theorem parse_error_leaves_partial_mutation :
    (read_dual_arm_self_collision_model_from_json (.parsed cexDoc)
        DualArmColliderConfiguration.init).1 = .error .configParseError ∧
    (read_dual_arm_self_collision_model_from_json (.parsed cexDoc)
        DualArmColliderConfiguration.init).2.dh = [1, 0, 0, 0] ∧
    (read_dual_arm_self_collision_model_from_json (.parsed cexDoc)
        DualArmColliderConfiguration.init).2 ≠
      DualArmColliderConfiguration.init := by
  refine ⟨rfl, rfl, ?_⟩
  intro h
  have h2 : (read_dual_arm_self_collision_model_from_json (.parsed cexDoc)
      DualArmColliderConfiguration.init).2.dh = [1, 0, 0, 0] := rfl
  rw [h] at h2
  simp [DualArmColliderConfiguration.init] at h2

/-- C5 (amended): the loader fails with `ConfigNotFound` when the file
does not exist and with `ConfigParseError` when the document is not
well-formed, and in those two cases the caller's config is untouched;
a `ConfigParseError` raised part-way through a well-formed document,
however, can leave the config partially mutated. -/
theorem loader_clean_failures (c : DualArmColliderConfiguration) :
    read_dual_arm_self_collision_model_from_json .missing c =
      (.error .configNotFound, c) ∧
    read_dual_arm_self_collision_model_from_json .invalidJson c =
      (.error .configParseError, c) :=
  ⟨rfl, rfl⟩

/-- C9: after any successful load, the left-arm and right-arm base
capsules of the resulting config are equal — both are read from the one
`"base"` key of the document. -/
theorem left_right_base_shared (v : JVal) (c : DualArmColliderConfiguration)
    (h : (read_dual_arm_self_collision_model_from_json (.parsed v) c).1 =
      .ok ()) :
    (read_dual_arm_self_collision_model_from_json (.parsed v) c).2.L_base =
      (read_dual_arm_self_collision_model_from_json (.parsed v) c).2.R_base := by
  simp only [read_dual_arm_self_collision_model_from_json, loaderSteps] at h ⊢
  cases h1 : robTypeStep v c
  case error => rw [runSteps_cons_err h1] at h; simp at h
  rename_i c1
  rw [runSteps_cons_ok h1] at h ⊢
  cases h2 : dhStep v c1
  case error => rw [runSteps_cons_err h2] at h; simp at h
  rename_i c2
  rw [runSteps_cons_ok h2] at h ⊢
  cases h3 : platformStep v c2
  case error => rw [runSteps_cons_err h3] at h; simp at h
  rename_i c3
  rw [runSteps_cons_ok h3] at h ⊢
  cases h4 : truckStep v c3
  case error => rw [runSteps_cons_err h4] at h; simp at h
  rename_i c4
  rw [runSteps_cons_ok h4] at h ⊢
  cases h5 : headStep v c4
  case error => rw [runSteps_cons_err h5] at h; simp at h
  rename_i c5
  rw [runSteps_cons_ok h5] at h ⊢
  cases h6 : loadCapsule v "base"
  case error =>
    rw [runSteps_cons_err (show lBaseStep v c5 = .error () by
      simp [lBaseStep, h6, Except.map])] at h
    simp at h
  rename_i mb
  rw [runSteps_cons_ok (show lBaseStep v c5 = .ok { c5 with L_base := mb } by
    simp [lBaseStep, h6, Except.map])] at h ⊢
  set c6 : DualArmColliderConfiguration := { c5 with L_base := mb } with hc6
  cases h7 : loadCapsule v "l_lowerArm"
  case error =>
    rw [runSteps_cons_err (show lLowerArmStep v c6 = .error () by
      simp [lLowerArmStep, h7, Except.map])] at h
    simp at h
  rename_i m7
  rw [runSteps_cons_ok (show lLowerArmStep v c6 =
      .ok { c6 with L_lowerArm := m7 } by
    simp [lLowerArmStep, h7, Except.map])] at h ⊢
  set c7 : DualArmColliderConfiguration := { c6 with L_lowerArm := m7 } with hc7
  cases h8 : loadCapsule v "l_elbow"
  case error =>
    rw [runSteps_cons_err (show lElbowStep v c7 = .error () by
      simp [lElbowStep, h8, Except.map])] at h
    simp at h
  rename_i m8
  rw [runSteps_cons_ok (show lElbowStep v c7 = .ok { c7 with L_elbow := m8 } by
    simp [lElbowStep, h8, Except.map])] at h ⊢
  set c8 : DualArmColliderConfiguration := { c7 with L_elbow := m8 } with hc8
  cases h9 : loadCapsule v "l_upperArm"
  case error =>
    rw [runSteps_cons_err (show lUpperArmStep v c8 = .error () by
      simp [lUpperArmStep, h9, Except.map])] at h
    simp at h
  rename_i m9
  rw [runSteps_cons_ok (show lUpperArmStep v c8 =
      .ok { c8 with L_upperArm := m9 } by
    simp [lUpperArmStep, h9, Except.map])] at h ⊢
  set c9 : DualArmColliderConfiguration := { c8 with L_upperArm := m9 } with hc9
  cases h10 : loadBall v "l_wrist"
  case error =>
    rw [runSteps_cons_err (show lWristStep v c9 = .error () by
      simp [lWristStep, h10, Except.map])] at h
    simp at h
  rename_i m10
  rw [runSteps_cons_ok (show lWristStep v c9 = .ok { c9 with L_wrist := m10 } by
    simp [lWristStep, h10, Except.map])] at h ⊢
  set c10 : DualArmColliderConfiguration := { c9 with L_wrist := m10 } with hc10
  rw [runSteps_cons_ok (show rBaseStep v c10 = .ok { c10 with R_base := mb } by
    simp [rBaseStep, h6, Except.map])] at h ⊢
  set c11 : DualArmColliderConfiguration := { c10 with R_base := mb } with hc11
  cases h12 : loadCapsule v "r_lowerArm"
  case error =>
    rw [runSteps_cons_err (show rLowerArmStep v c11 = .error () by
      simp [rLowerArmStep, h12, Except.map])] at h
    simp at h
  rename_i m12
  rw [runSteps_cons_ok (show rLowerArmStep v c11 =
      .ok { c11 with R_lowerArm := m12 } by
    simp [rLowerArmStep, h12, Except.map])] at h ⊢
  set c12 : DualArmColliderConfiguration :=
    { c11 with R_lowerArm := m12 } with hc12
  cases h13 : loadCapsule v "r_elbow"
  case error =>
    rw [runSteps_cons_err (show rElbowStep v c12 = .error () by
      simp [rElbowStep, h13, Except.map])] at h
    simp at h
  rename_i m13
  rw [runSteps_cons_ok (show rElbowStep v c12 =
      .ok { c12 with R_elbow := m13 } by
    simp [rElbowStep, h13, Except.map])] at h ⊢
  set c13 : DualArmColliderConfiguration := { c12 with R_elbow := m13 } with hc13
  cases h14 : loadCapsule v "r_upperArm"
  case error =>
    rw [runSteps_cons_err (show rUpperArmStep v c13 = .error () by
      simp [rUpperArmStep, h14, Except.map])] at h
    simp at h
  rename_i m14
  rw [runSteps_cons_ok (show rUpperArmStep v c13 =
      .ok { c13 with R_upperArm := m14 } by
    simp [rUpperArmStep, h14, Except.map])] at h ⊢
  set c14 : DualArmColliderConfiguration :=
    { c13 with R_upperArm := m14 } with hc14
  cases h15 : loadBall v "r_wrist"
  case error =>
    rw [runSteps_cons_err (show rWristStep v c14 = .error () by
      simp [rWristStep, h15, Except.map])] at h
    simp at h
  rename_i m15
  rw [runSteps_cons_ok (show rWristStep v c14 =
      .ok { c14 with R_wrist := m15 } by
    simp [rWristStep, h15, Except.map])] at h ⊢
  simp only [runSteps]

/-- C9 witness: the theorem at the empty document, which loads
successfully with every section defaulted. -/
theorem left_right_base_shared_witness :
    (read_dual_arm_self_collision_model_from_json (.parsed (.obj []))
        DualArmColliderConfiguration.init).2.L_base =
      (read_dual_arm_self_collision_model_from_json (.parsed (.obj []))
        DualArmColliderConfiguration.init).2.R_base :=
  left_right_base_shared (.obj []) DualArmColliderConfiguration.init rfl

end DualArm
